import Mathlib

/-!
Verification development for the walled-garden community chat application.

The definitions below are a shallow embedding of the data-flow layer of the
repository: the Dashboard message feed (bulk load, client-side join with
profiles, live-insert subscription handler, send handler), the member
directory search, the mock auth context (login / signup / session
persistence), and the profile avatar upload handler.  Remote row-store
operations are modelled as pure functions over an explicit list of rows;
nondeterministic inputs of the code (random file names, generated ids,
whether a remote call fails) are passed as explicit parameters.
-/

/-- Row of the `messages` table as selected by the Dashboard
(`select('id, user_id, content, created_at')`).  The creation timestamp is
modelled as a natural number so that the backend order clause
(`order('created_at', ascending: true)`) is a sort over `Nat`. -/
structure MsgRow where
  id : String
  user_id : String
  content : String
  created_at : Nat
deriving DecidableEq, Repr

/-- Columns of the `profiles` table selected for the message join
(`select('user_id, display_name, avatar_url')`). -/
structure ProfileSnapshot where
  user_id : String
  display_name : Option String
  avatar_url : Option String
deriving DecidableEq, Repr

/-- A message merged with its author profile, as built by the Dashboard:
`{ ...msg, profiles: profileMap.get(msg.user_id) || null }`. -/
structure JoinedMessage where
  msg : MsgRow
  profiles : Option ProfileSnapshot
deriving DecidableEq, Repr

/-- Full `profiles` row as used by the member sidebar (`select('*')`). -/
structure Profile where
  id : String
  user_id : String
  display_name : Option String
  avatar_url : Option String
  bio : Option String
  is_admin : Bool
  email : String
deriving DecidableEq, Repr

/-- Backend order clause of the bulk historical load:
`order('created_at', { ascending: true })`.  Modelled as a stable sort by
the creation timestamp alone (no secondary sort key is requested by the
code), so rows with equal timestamps keep the backend's stored order. -/
def loadHistory (msgs : List MsgRow) : List MsgRow :=
  List.insertionSort (fun a b => a.created_at ≤ b.created_at) msgs

/-- Lookup in the profile map built by
`new Map(allProfiles.map(p => [p.user_id, p]))`: a JavaScript `Map`
constructed from an entry list keeps the LAST entry for a duplicated key,
hence the lookup scans the reversed list. -/
def profileMapGet (ps : List ProfileSnapshot) (k : String) : Option ProfileSnapshot :=
  ps.reverse.find? (fun p => p.user_id == k)

/-- Client-side join of the fetched messages with the profile map:
`messagesData.map(msg => ({ ...msg, profiles: profileMap.get(msg.user_id) || null }))`. -/
def joinMessages (msgs : List MsgRow) (ps : List ProfileSnapshot) : List JoinedMessage :=
  msgs.map (fun m => ⟨m, profileMapGet ps m.user_id⟩)

/-- The joined message list produced by `fetchData`: bulk load ordered by
creation timestamp, then merged with the bulk profile fetch. -/
def fetchData (msgs : List MsgRow) (ps : List ProfileSnapshot) : List JoinedMessage :=
  joinMessages (loadHistory msgs) ps

/-- Sender name shown for a joined message:
`message.profiles?.display_name || 'Unknown User'` (JavaScript `||` also
replaces an empty display name by the fallback). -/
def senderName (m : JoinedMessage) : String :=
  match m.profiles with
  | none => "Unknown User"
  | some p =>
    match p.display_name with
    | none => "Unknown User"
    | some s => if s = "" then "Unknown User" else s

/-- Single-row fetch `eq(column, v).single()`: `single()` yields the row
only when exactly one row matches, otherwise `data` is `null`. -/
def selectSingleMessage (msgs : List MsgRow) (mid : String) : Option MsgRow :=
  match msgs.filter (fun m => m.id == mid) with
  | [m] => some m
  | _ => none

/-- Single-row profile fetch used by the subscription handler:
`from('profiles').select('user_id, display_name, avatar_url').eq('user_id', uid).single()`. -/
def selectSingleProfile (ps : List ProfileSnapshot) (uid : String) : Option ProfileSnapshot :=
  match ps.filter (fun p => p.user_id == uid) with
  | [p] => some p
  | _ => none

/-- Live INSERT notification handler of the messages subscription: re-fetch
the notified row by `payload.new.id`, look up its author profile, and append
the joined record to the previous feed (`setMessages(prev => [...prev,
messageWithProfile])`); when the re-fetch yields no row, nothing happens. -/
def handleNewMessage (msgs : List MsgRow) (ps : List ProfileSnapshot)
    (notifiedId : String) (feed : List JoinedMessage) : List JoinedMessage :=
  match selectSingleMessage msgs notifiedId with
  | none => feed
  | some m => feed ++ [⟨m, selectSingleProfile ps m.user_id⟩]

/-- Authenticated user of the mock auth context (`User` interface). -/
structure AuthUser where
  id : String
  name : String
  email : String
  avatar : Option String
  bio : Option String
  isAdmin : Option Bool
deriving DecidableEq, Repr

/-- In-memory chat input state of the Dashboard relevant to sending:
the joined feed and the pending input text. -/
structure ChatState where
  messages : List JoinedMessage
  newMessage : String
deriving DecidableEq, Repr

/-- Outcome of `handleSendMessage` as observed by the caller. -/
inductive SendResult
  | notSent
  | sendError
  | sent
deriving DecidableEq, Repr

/-- Fields of the insert issued by `handleSendMessage`:
`insert({ user_id: user.id, content: newMessage })`. -/
structure InsertRequest where
  user_id : String
  content : String
deriving DecidableEq, Repr

/-- Emptiness of the JavaScript `text.trim()`: the trimmed string is empty
exactly when every character of the text is whitespace (true as well for
the empty text).  This models the falsiness test `!newMessage.trim()`. -/
def trimIsEmpty (s : String) : Bool :=
  s.toList.all (fun c => c.isWhitespace)

/-- The Dashboard send handler.  `insertFails` tells whether the remote
insert answers with an error.  Returns the new local state, the list of
insert requests issued to the backend (empty or a singleton), and the
surfaced outcome.  Faithful to:
`if (!newMessage.trim() || !user) return;` then the insert; on error a
destructive toast is raised, on success only the input is cleared — the
feed list is never touched by this handler. -/
def handleSendMessage (user : Option AuthUser) (insertFails : Bool)
    (s : ChatState) : ChatState × List InsertRequest × SendResult :=
  if trimIsEmpty s.newMessage then (s, [], .notSent)
  else
    match user with
    | none => (s, [], .notSent)
    | some u =>
      if insertFails then (s, [⟨u.id, s.newMessage⟩], .sendError)
      else ({ s with newMessage := "" }, [⟨u.id, s.newMessage⟩], .sent)

/-- Errors of the auth context, by the spec taxonomy: `AuthenticationError`
is the thrown `Invalid credentials`, `AuthorizationError` the thrown
`Email not authorized for registration`. -/
inductive AuthError
  | authenticationError
  | authorizationError
deriving DecidableEq, Repr

/-- State of the mock auth layer: the `MOCK_USERS` array, the in-memory
session (`user` state) and the durable storage slot
(`localStorage` key `currentUser`). -/
structure AuthState where
  users : List AuthUser
  session : Option AuthUser
  storage : Option AuthUser
deriving DecidableEq, Repr

/-- The `ALLOWED_EMAILS` allow-list of the auth context. -/
def ALLOWED_EMAILS : List String :=
  ["admin@example.com", "user1@example.com", "user2@example.com", "test@example.com"]

/-- `login(email, password)` of the auth context: find a stored user by
email (`MOCK_USERS.find(u => u.email === email)`); throw when none is
found, otherwise set the session and persist it.  The thrown error leaves
the state untouched; the password argument is taken but never read by the
source. -/
def login (st : AuthState) (email _password : String) :
    AuthState × Option AuthError :=
  match st.users.find? (fun u => u.email == email) with
  | none => (st, some .authenticationError)
  | some u => ({ st with session := some u, storage := some u }, none)

/-- `signup(email, password, name)` of the auth context: reject (throw)
when the email is not in `ALLOWED_EMAILS`, before anything is created;
otherwise build the new user (generated id passed in as `newId`, empty
bio), push it onto the user store, set the session and persist it. -/
def signup (st : AuthState) (email _password name newId : String) :
    AuthState × Option AuthError :=
  if ALLOWED_EMAILS.contains email then
    let newUser : AuthUser := ⟨newId, name, email, none, some "", none⟩
    ({ users := st.users ++ [newUser],
       session := some newUser, storage := some newUser }, none)
  else (st, some .authorizationError)

/-- Helper for the JavaScript `String.prototype.includes`: `pre` matches at
the head of `s`. -/
def strHasPre : List Char → List Char → Bool
  | [], _ => true
  | _ :: _, [] => false
  | a :: as, b :: bs => a == b && strHasPre as bs

/-- `sub` occurs somewhere in `s` (at the head or in the tail). -/
def strHasSub (sub : List Char) : List Char → Bool
  | [] => strHasPre sub []
  | c :: cs => strHasPre sub (c :: cs) || strHasSub sub cs

/-- JavaScript `s.includes(sub)`. -/
def strContains (s sub : String) : Bool :=
  strHasSub sub.toList s.toList

/-- JavaScript truthiness of a nullable string: `null`/`undefined` and the
empty string are falsy. -/
def truthyStr : Option String → Bool
  | none => false
  | some s => !(s == "")

/-- JavaScript `s.toLowerCase()`, modelled character-wise. -/
def strToLower (s : String) : String :=
  String.mk (s.toList.map Char.toLower)

/-- The comparison `p.user_id !== user?.id` of the sidebar pre-filter:
when no user is present, `user?.id` is `undefined` and the comparison with
a string identifier is always true. -/
def notCaller (currentUserId : Option String) (p : Profile) : Bool :=
  match currentUserId with
  | some uid => p.user_id != uid
  | none => true

/-- The disjunct `p.display_name?.toLowerCase().includes(term.toLowerCase())`
of the member search: a null display name short-circuits to falsy. -/
def nameMatches (term : String) (p : Profile) : Bool :=
  match p.display_name with
  | some d => strContains (strToLower d) (strToLower term)
  | none => false

/-- Sidebar pre-filter of the Dashboard:
`profiles.filter(p => p.user_id !== user?.id && p.display_name && p.user_id)`
— drop the caller's own row, rows without a truthy display name, and rows
without a truthy identifier.  `currentUserId` is `user?.id`. -/
def otherProfiles (currentUserId : Option String) (profiles : List Profile) :
    List Profile :=
  profiles.filter (fun p =>
    notCaller currentUserId p && truthyStr p.display_name && !(p.user_id == ""))

/-- Member search of the Dashboard:
`otherProfiles.filter(p => p.display_name?.toLowerCase().includes(searchTerm.toLowerCase()) || p.email?.toLowerCase().includes(searchTerm.toLowerCase()))`. -/
def filteredUsers (currentUserId : Option String) (searchTerm : String)
    (profiles : List Profile) : List Profile :=
  (otherProfiles currentUserId profiles).filter (fun p =>
    nameMatches searchTerm p ||
    strContains (strToLower p.email) (strToLower searchTerm))

/-- Selected avatar file as seen by `handleImageUpload`: name, MIME type
(`file.type`) and size in bytes. -/
structure UploadFile where
  name : String
  mime : String
  size : Nat
deriving DecidableEq, Repr

/-- The fixed image MIME allow-list of `handleImageUpload`. -/
def allowedTypes : List String :=
  ["image/jpeg", "image/jpg", "image/png", "image/webp", "image/gif"]

/-- Calls issued to the object storage collaborator
(`supabase.storage.from('avatars')`). -/
inductive StorageCall
  | remove (bucket : String) (path : String)
  | upload (bucket : String) (path : String)
deriving DecidableEq, Repr

/-- Outcome of `handleImageUpload` as observed through the raised toasts. -/
inductive UploadOutcome
  | noFile
  | validationError
  | uploadError
  | uploaded
deriving DecidableEq, Repr

/-- Public URL returned by `getPublicUrl(filePath)` for the avatars
bucket. -/
def publicUrlOf (filePath : String) : String :=
  "avatars/" ++ filePath

/-- JavaScript `str.split(sep).pop()`: the last fragment of the split
(split of a string is never empty, so `pop` yields a string). -/
def splitPop (s sep : String) : String :=
  (s.splitOn sep).getLastD ""

/-- The avatar upload handler of the profile page.  Inputs: the caller
(`user?.id`), the currently stored avatar URL (`profileUser?.avatar_url`),
whether the storage upload answers with an error, the random file stem
(`Math.random()`), the selected file, and the currently displayed avatar
value (`profileData.avatar`).  Output: the displayed avatar after the
handler, the storage calls issued, and the observed outcome.  Faithful to
the source: guard on file and user id, MIME allow-list check, strict 5MB
(`5 * 1024 * 1024` bytes) size check — both before any storage call —
then best-effort delete of the old asset, upload of the new one, and only
on upload success the displayed avatar becomes the public URL. -/
def handleImageUpload (userId : Option String) (oldAvatarUrl : Option String)
    (uploadFails : Bool) (randName : String) (file : Option UploadFile)
    (displayedAvatar : String) : String × List StorageCall × UploadOutcome :=
  match file, userId with
  | none, _ => (displayedAvatar, [], .noFile)
  | some _, none => (displayedAvatar, [], .noFile)
  | some f, some uid =>
    if uid == "" then (displayedAvatar, [], .noFile)
    else if !(allowedTypes.contains f.mime) then (displayedAvatar, [], .validationError)
    else if 5 * 1024 * 1024 < f.size then (displayedAvatar, [], .validationError)
    else
      let removeCalls : List StorageCall :=
        match oldAvatarUrl with
        | some url =>
          if url == "" then []
          else
            let oldPath := splitPop url "/"
            if oldPath == "" then []
            else [.remove "avatars" (uid ++ "/" ++ oldPath)]
        | none => []
      let fileExt := splitPop f.name "."
      let filePath := uid ++ "/" ++ randName ++ "." ++ fileExt
      let calls := removeCalls ++ [.upload "avatars" filePath]
      if uploadFails then (displayedAvatar, calls, .uploadError)
      else (publicUrlOf filePath, calls, .uploaded)

/-- Demo user for concrete instantiations. -/
def userA : AuthUser :=
  ⟨"u1", "Ada", "ada@example.com", none, none, none⟩

/-- Demo message row (identifier "a"). -/
def msgTieA : MsgRow := ⟨"a", "u1", "first", 5⟩

/-- Demo message row (identifier "b") with the same creation timestamp as
the row with identifier "a". -/
def msgTieB : MsgRow := ⟨"b", "u2", "second", 5⟩

/-- Demo profile row without a display name. -/
def profileNoName : Profile :=
  ⟨"p1", "u2", none, none, none, false, "member@example.com"⟩

/-- Predicate of the amended C5 characterization: a profile is returned by
the member search exactly when its display name or email contains the term
case-insensitively, it is not the caller's own row, it has a truthy
(non-null, non-empty) display name and a truthy identifier. -/
def searchSpecPred (currentUserId : Option String) (term : String) (p : Profile) : Bool :=
  (nameMatches term p || strContains (strToLower p.email) (strToLower term)) &&
  (notCaller currentUserId p && truthyStr p.display_name && !(p.user_id == ""))

/-- The total order and transitivity of the timestamp comparison used by
the backend order clause. -/
instance : IsTotal MsgRow (fun a b => a.created_at ≤ b.created_at) :=
  ⟨fun a b => Nat.le_total a.created_at b.created_at⟩

instance : IsTrans MsgRow (fun a b => a.created_at ≤ b.created_at) :=
  ⟨fun _ _ _ h h2 => Nat.le_trans h h2⟩

/-- C10: if the message text is empty or consists only of whitespace, or
there is no authenticated user, the send handler performs no insert at
all: the backend is not called, the feed list is unchanged, and the
pending input text is unchanged. -/
theorem c10_send_guard_no_insert (user : Option AuthUser) (insertFails : Bool)
    (s : ChatState) (h : trimIsEmpty s.newMessage = true ∨ user = none) :
    handleSendMessage user insertFails s = (s, [], .notSent) := by
  unfold handleSendMessage
  rcases h with h | h
  · simp [h]
  · subst h
    cases hb : trimIsEmpty s.newMessage <;> simp

/-- Witness for C10 at a concrete input: a whitespace-only pending text
with an authenticated user sends nothing and changes nothing. -/
theorem c10_witness :
    handleSendMessage (some userA) false ⟨[], " "⟩ = (⟨[], " "⟩, [], .notSent) :=
  c10_send_guard_no_insert (some userA) false ⟨[], " "⟩ (Or.inl (by decide))

/-- Counterexample to C3 as stated: the text consisting of a single space
is non-empty and a user is authenticated, yet the handler issues NO insert
(the guard fires on the trimmed text), while the claim requires a single
insert for every non-empty text. -/
theorem c3_counterexample :
    (" " : String) ≠ "" ∧
    handleSendMessage (some userA) false ⟨[], " "⟩ = (⟨[], " "⟩, [], .notSent) := by
  constructor
  · decide
  · decide

/-- C3 (amended): for every message text whose trimmed form is non-empty
and an authenticated user, the handler issues exactly one insert carrying
the user id and the raw text, never appends to the local feed list, and on
a failing insert surfaces the send error with the state exactly as it was
before the call. -/
theorem c3_send_is_fire_and_forget (u : AuthUser) (insertFails : Bool)
    (s : ChatState) (h : trimIsEmpty s.newMessage = false) :
    (handleSendMessage (some u) insertFails s).2.1 = [⟨u.id, s.newMessage⟩] ∧
    (handleSendMessage (some u) insertFails s).1.messages = s.messages ∧
    (insertFails = true →
      handleSendMessage (some u) insertFails s =
        (s, [⟨u.id, s.newMessage⟩], .sendError)) := by
  unfold handleSendMessage
  cases insertFails <;> simp [h]

/-- Witness for C3 (amended) at a concrete input: sending "hi" with a
failing backend issues one insert and leaves the state intact. -/
theorem c3_witness :
    (handleSendMessage (some userA) true ⟨[], "hi"⟩).2.1 = [⟨"u1", "hi"⟩] ∧
    handleSendMessage (some userA) true ⟨[], "hi"⟩ =
      (⟨[], "hi"⟩, [⟨"u1", "hi"⟩], .sendError) := by
  have h := c3_send_is_fire_and_forget userA true ⟨[], "hi"⟩ (by decide)
  exact ⟨h.1, h.2.2 rfl⟩

/-- C6: signup with an email that is not on the allow-list fails with the
authorization error before any identity is created — the user store, the
session and the durable storage are exactly as before; with an
allow-listed email the new identity is appended to the store and becomes
the populated and persisted session. -/
theorem c6_signup_allowlist_gate (st : AuthState) (email pwd name newId : String) :
    (ALLOWED_EMAILS.contains email = false →
       signup st email pwd name newId = (st, some .authorizationError)) ∧
    (ALLOWED_EMAILS.contains email = true →
       signup st email pwd name newId =
         ({ users := st.users ++ [⟨newId, name, email, none, some "", none⟩],
            session := some ⟨newId, name, email, none, some "", none⟩,
            storage := some ⟨newId, name, email, none, some "", none⟩ }, none)) := by
  constructor <;> intro h
  · have h2 : email ∉ ALLOWED_EMAILS := by simpa using h
    simp [signup, h2]
  · have h2 : email ∈ ALLOWED_EMAILS := by simpa using h
    simp [signup, h2]

/-- Witness for C6 at the spec's concrete scenario: signup with
"nobody@example.com" (not allow-listed) fails and leaves the empty state
untouched; signup with "test@example.com" (allow-listed) creates and
persists the session. -/
theorem c6_witness :
    signup ⟨[], none, none⟩ "nobody@example.com" "pw" "Nobody" "id9" =
      (⟨[], none, none⟩, some .authorizationError) ∧
    signup ⟨[], none, none⟩ "test@example.com" "pw" "Tess" "id7" =
      (⟨[⟨"id7", "Tess", "test@example.com", none, some "", none⟩],
        some ⟨"id7", "Tess", "test@example.com", none, some "", none⟩,
        some ⟨"id7", "Tess", "test@example.com", none, some "", none⟩⟩, none) :=
  ⟨(c6_signup_allowlist_gate ⟨[], none, none⟩ "nobody@example.com" "pw" "Nobody" "id9").1
      (by decide),
   (c6_signup_allowlist_gate ⟨[], none, none⟩ "test@example.com" "pw" "Tess" "id7").2
      (by decide)⟩

/-- C7: login fails with the authentication error exactly when no stored
user carries the given email (the code's notion of invalid credentials;
passwords are not part of the stored identities); the failure leaves the
whole state unchanged, and on a match the session is populated with the
found user and the same snapshot is persisted to durable storage. -/
theorem c7_login_success_iff_known_email (st : AuthState) (email pwd : String) :
    ((login st email pwd).2 = some .authenticationError ↔
       ∀ u ∈ st.users, u.email ≠ email) ∧
    ((∀ u ∈ st.users, u.email ≠ email) →
       login st email pwd = (st, some .authenticationError)) ∧
    (∀ u, st.users.find? (fun v => v.email == email) = some u →
       login st email pwd = ({ st with session := some u, storage := some u }, none)) := by
  cases hf : st.users.find? (fun v => v.email == email) with
  | none =>
    have hall : ∀ u ∈ st.users, u.email ≠ email := by
      intro u hu
      have := List.find?_eq_none.mp hf u hu
      simpa using this
    refine ⟨?_, fun _ => by simp [login, hf], ?_⟩
    · constructor
      · intro _
        exact hall
      · intro _
        simp [login, hf]
    · intro u hu
      simp at hu
  | some u =>
    have hmem : u ∈ st.users := List.mem_of_find?_eq_some hf
    have hemail : u.email = email := by
      have := List.find?_some hf
      simpa using this
    refine ⟨?_, ?_, ?_⟩
    · simp only [login, hf]
      constructor
      · intro hcontra
        simp at hcontra
      · intro hall
        exact absurd hemail (hall u hmem)
    · intro hall
      exact absurd hemail (hall u hmem)
    · intro v hv
      injection hv with hv
      subst hv
      simp [login, hf]

/-- Witness for C7 at a concrete input: logging in with an unknown email
fails and changes nothing; logging in with a stored email populates and
persists the session with that user. -/
theorem c7_witness :
    login ⟨[userA], none, none⟩ "ghost@example.com" "pw" =
      (⟨[userA], none, none⟩, some .authenticationError) ∧
    login ⟨[userA], none, none⟩ "ada@example.com" "pw" =
      (⟨[userA], some userA, some userA⟩, none) :=
  ⟨(c7_login_success_iff_known_email ⟨[userA], none, none⟩ "ghost@example.com" "pw").2.1
      (by decide),
   (c7_login_success_iff_known_email ⟨[userA], none, none⟩ "ada@example.com" "pw").2.2
      userA (by decide)⟩

/-- C9: the outcome of login is independent of the password — for any two
passwords the whole result (state and error) is identical — and for any
email carried by a stored user, login succeeds no matter the password. -/
theorem c9_login_ignores_password (st : AuthState) (email p1 p2 : String) :
    login st email p1 = login st email p2 ∧
    (∀ u ∈ st.users, u.email = email → (login st email p1).2 = none) := by
  refine ⟨rfl, ?_⟩
  intro u hu he
  cases hf : st.users.find? (fun v => v.email == email) with
  | none =>
    have := List.find?_eq_none.mp hf u hu
    simp at this
    exact absurd he this
  | some v => simp [login, hf]

/-- Witness for C9 at a concrete input: the stored email logs in with an
arbitrary wrong password. -/
theorem c9_witness :
    (login ⟨[userA], none, none⟩ "ada@example.com" "totally-wrong").2 = none :=
  (c9_login_ignores_password ⟨[userA], none, none⟩ "ada@example.com"
      "totally-wrong" "x").2 userA (by decide) (by decide)

/-- C1: the live insert handler leaves the existing feed elements and
their relative order unchanged (the previous feed is the prefix of the
result), and whenever the defensive re-fetch by the notified identifier
yields the row, the handler appends exactly the joined record built from
that row and the second profile lookup to the end of the feed. -/
theorem c1_live_insert_appends (msgs : List MsgRow) (ps : List ProfileSnapshot)
    (nid : String) (feed : List JoinedMessage) :
    (handleNewMessage msgs ps nid feed).take feed.length = feed ∧
    ∀ m, selectSingleMessage msgs nid = some m →
      handleNewMessage msgs ps nid feed =
        feed ++ [⟨m, selectSingleProfile ps m.user_id⟩] := by
  unfold handleNewMessage
  cases hf : selectSingleMessage msgs nid with
  | none =>
    refine ⟨List.take_length feed, ?_⟩
    intro m hm
    simp at hm
  | some m =>
    refine ⟨List.take_left feed _, ?_⟩
    intro m2 hm
    injection hm with hm
    subst hm
    rfl

/-- Witness for C1 at a concrete input: a notification for identifier "a"
re-fetches the row and appends it (with no matching profile) to the end of
a one-element feed. -/
theorem c1_witness :
    handleNewMessage [msgTieA] [] "a" [⟨msgTieB, none⟩] =
      [⟨msgTieB, none⟩, ⟨msgTieA, none⟩] := by
  have h := (c1_live_insert_appends [msgTieA] [] "a" [⟨msgTieB, none⟩]).2
      msgTieA (by decide)
  rw [h]
  decide

/-- C2: the client-side join never drops a message — mapping the joined
list back to its message rows returns exactly the fetched rows, so there
is one joined element per fetched row, in order — and a joined element
whose author has no matching profile carries the null profile snapshot and
is displayed as "Unknown User"; the same holds on the live insert path. -/
theorem c2_join_keeps_all_messages (msgs : List MsgRow) (ps : List ProfileSnapshot) :
    (joinMessages msgs ps).length = msgs.length ∧
    (joinMessages msgs ps).map (fun j => j.msg) = msgs ∧
    (∀ j ∈ joinMessages msgs ps,
       (∀ p ∈ ps, p.user_id ≠ j.msg.user_id) →
         j.profiles = none ∧ senderName j = "Unknown User") ∧
    (∀ msgsL nid feed m, selectSingleMessage msgsL nid = some m →
       (∀ p ∈ ps, p.user_id ≠ m.user_id) →
         handleNewMessage msgsL ps nid feed = feed ++ [⟨m, none⟩]) := by
  refine ⟨by simp [joinMessages], ?_, ?_, ?_⟩
  · induction msgs with
    | nil => rfl
    | cons m t ih =>
      simpa [joinMessages] using ih
  · intro j hj hnone
    unfold joinMessages at hj
    rw [List.mem_map] at hj
    obtain ⟨m, hm, hjm⟩ := hj
    have hmsg : j.msg = m := by rw [← hjm]
    have hget : profileMapGet ps m.user_id = none := by
      unfold profileMapGet
      rw [List.find?_eq_none]
      intro p hp
      have hp2 : p ∈ ps := List.mem_reverse.mp hp
      have hne := hnone p hp2
      rw [hmsg] at hne
      simp [hne]
    constructor
    · rw [← hjm]
      exact hget
    · rw [← hjm]
      unfold senderName
      simp [hget]
  · intro msgsL nid feed m hm hnone
    have hprof : selectSingleProfile ps m.user_id = none := by
      unfold selectSingleProfile
      have hfilter : ps.filter (fun p => p.user_id == m.user_id) = [] := by
        rw [List.filter_eq_nil_iff]
        intro p hp
        simp [hnone p hp]
      rw [hfilter]
    unfold handleNewMessage
    rw [hm]
    show feed ++ [⟨m, selectSingleProfile ps m.user_id⟩] = feed ++ [⟨m, none⟩]
    rw [hprof]

/-- Witness for C2 at a concrete input: two messages joined against a
profile list that matches neither are both kept, with null profiles and
the "Unknown User" display name; the live path appends a null-profile
record likewise. -/
theorem c2_witness :
    joinMessages [msgTieA, msgTieB] [] = [⟨msgTieA, none⟩, ⟨msgTieB, none⟩] ∧
    senderName ⟨msgTieA, none⟩ = "Unknown User" ∧
    handleNewMessage [msgTieB] [] "b" [] = [⟨msgTieB, none⟩] := by
  have h := c2_join_keeps_all_messages [msgTieA, msgTieB] []
  refine ⟨by decide, ?_, ?_⟩
  · exact (h.2.2.1 ⟨msgTieA, none⟩ (by decide) (by simp)).2
  · have h2 := h.2.2.2 [msgTieB] "b" [] msgTieB (by decide) (by simp)
    rw [h2]
    rfl

/-- Counterexample to C4 as stated: two messages with equal creation
timestamps and distinct identifiers come back from the bulk load in
whichever relative order the backend stores them — both orders occur for
the same pair — so their order is NOT determined by comparing their
identifiers. -/
theorem c4_counterexample :
    loadHistory [msgTieB, msgTieA] = [msgTieB, msgTieA] ∧
    loadHistory [msgTieA, msgTieB] = [msgTieA, msgTieB] ∧
    msgTieA.created_at = msgTieB.created_at ∧
    msgTieA.id ≠ msgTieB.id := by decide

/-- C4 (amended): the bulk historical load returns a permutation of the
stored messages that is sorted ascending (non-strictly) by creation
timestamp; no identifier tie-break is applied, so messages with equal
timestamps stay in the backend's relative order. -/
theorem c4_load_sorted_by_created_at (msgs : List MsgRow) :
    List.Sorted (fun a b => a.created_at ≤ b.created_at) (loadHistory msgs) ∧
    (loadHistory msgs).Perm msgs :=
  ⟨List.sorted_insertionSort _ msgs, List.perm_insertionSort _ msgs⟩

/-- Counterexample to C5 as stated: with the directory holding a single
profile that has no display name and belongs to another member, the empty
search term returns the empty list — the profile without a display name is
dropped even from the empty search, while the claim requires the empty
search to return every profile except the caller's. -/
theorem c5_counterexample :
    filteredUsers (some "u1") "" [profileNoName] = [] ∧
    profileNoName.user_id ≠ "u1" := by decide

/-- C5 (amended): the member search returns exactly the profiles — in the
original relative order, as a stable filter — that are not the caller's
own row, have a truthy display name and identifier, and whose display name
or email contains the term case-insensitively; in particular a term
matching nothing yields the empty list. -/
theorem c5_search_characterization (cuid : Option String) (term : String)
    (ps : List Profile) :
    filteredUsers cuid term ps = ps.filter (searchSpecPred cuid term) ∧
    (filteredUsers cuid term ps).Sublist ps ∧
    (∀ p, p ∈ filteredUsers cuid term ps ↔
       p ∈ ps ∧ searchSpecPred cuid term p = true) ∧
    ((∀ p ∈ ps, searchSpecPred cuid term p = false) →
       filteredUsers cuid term ps = []) := by
  have heq : filteredUsers cuid term ps = ps.filter (searchSpecPred cuid term) := by
    unfold filteredUsers otherProfiles searchSpecPred
    rw [List.filter_filter]
  refine ⟨heq, ?_, ?_, ?_⟩
  · rw [heq]
    exact List.filter_sublist ps
  · intro p
    rw [heq, List.mem_filter]
  · intro hall
    rw [heq, List.filter_eq_nil_iff]
    intro p hp
    simp [hall p hp]

/-- Witness for C5 (amended) at concrete inputs: a named profile is found
case-insensitively by a fragment of its display name, and a term matching
nothing yields the empty list. -/
theorem c5_witness :
    filteredUsers (some "u1") "ber"
      [⟨"p2", "u3", some "Bertha", none, none, false, "bertha@example.com"⟩] =
      [⟨"p2", "u3", some "Bertha", none, none, false, "bertha@example.com"⟩] ∧
    filteredUsers (some "u1") "zzz"
      [⟨"p2", "u3", some "Bertha", none, none, false, "bertha@example.com"⟩] = [] := by
  constructor
  · rw [(c5_search_characterization (some "u1") "ber"
        [⟨"p2", "u3", some "Bertha", none, none, false, "bertha@example.com"⟩]).1]
    decide
  · exact (c5_search_characterization (some "u1") "zzz"
        [⟨"p2", "u3", some "Bertha", none, none, false, "bertha@example.com"⟩]).2.2.2
      (by decide)

/-- C8: a selected file with a MIME type outside the allow-list or larger
than 5MB makes the upload handler fail with the validation error before
any storage call — no delete, no upload — leaving the displayed avatar
unchanged; and when the storage upload itself fails, the outcome is the
upload error and the displayed avatar is still unchanged. -/
theorem c8_upload_validation_and_failure (uid : String) (oldUrl : Option String)
    (uploadFails : Bool) (randName : String) (f : UploadFile) (displayed : String)
    (huid : uid ≠ "") :
    ((allowedTypes.contains f.mime = false ∨ 5 * 1024 * 1024 < f.size) →
       handleImageUpload (some uid) oldUrl uploadFails randName (some f) displayed =
         (displayed, [], .validationError)) ∧
    (allowedTypes.contains f.mime = true → f.size ≤ 5 * 1024 * 1024 →
     uploadFails = true →
       (handleImageUpload (some uid) oldUrl uploadFails randName (some f) displayed).1 =
         displayed ∧
       (handleImageUpload (some uid) oldUrl uploadFails randName (some f) displayed).2.2 =
         .uploadError) := by
  constructor
  · intro h
    rcases h with h | h
    · have h2 : f.mime ∉ allowedTypes := by simpa using h
      simp [handleImageUpload, huid, h2]
    · cases hmime : allowedTypes.contains f.mime
      · have h2 : f.mime ∉ allowedTypes := by simpa using hmime
        simp [handleImageUpload, huid, h2]
      · have h2 : f.mime ∈ allowedTypes := by simpa using hmime
        simp [handleImageUpload, huid, h2, h]
  · intro hmime hsize hfail
    subst hfail
    have h2 : f.mime ∈ allowedTypes := by simpa using hmime
    have h3 : ¬ 5 * 1024 * 1024 < f.size := by omega
    simp [handleImageUpload, huid, h2, h3]

/-- Witness for C8 at the spec's concrete scenario: a 6MB PNG is rejected
with the validation error, no storage call is issued, and the displayed
avatar is unchanged; a 1-byte PNG whose upload fails leaves the displayed
avatar unchanged with the upload error. -/
theorem c8_witness :
    handleImageUpload (some "u1") none false "0.5" (some ⟨"big.png", "image/png", 6 * 1024 * 1024⟩)
      "old.png" = ("old.png", [], .validationError) ∧
    (handleImageUpload (some "u1") none true "0.5" (some ⟨"ok.png", "image/png", 1⟩)
      "old.png").1 = "old.png" := by
  constructor
  · exact (c8_upload_validation_and_failure "u1" none false "0.5"
        ⟨"big.png", "image/png", 6 * 1024 * 1024⟩ "old.png" (by decide)).1
      (Or.inr (by decide))
  · exact ((c8_upload_validation_and_failure "u1" none true "0.5"
        ⟨"ok.png", "image/png", 1⟩ "old.png" (by decide)).2
      (by decide) (by decide) rfl).1
